import Mathlib

/-!
Verification development for the WAF-Abuser repository.

Shallow embedding of the pure cores of the three source files:
  src/modules/utility.py       (UtilityFunctions)
  src/modules/subdomain_gathering.py (SubdomainGatherer)
  src/waf-abuser.py            (WAFAbuser)

Network effects (aiohttp fetches) are modelled as explicit function
parameters returning Option or Except values; Python exceptions are
modelled with the Except monad; Python sets are modelled as Finset;
file writes are modelled as explicit write-event values.
-/

/-- Python-level runtime errors that the embedded code can raise. -/
inductive PyError where
  /-- NameError: name aiofiles is not defined
      (utility.py line 47 references aiofiles, which is never imported). -/
  | nameErrorAiofiles
  /-- Any exception escaping a network source branch
      (connection failure, timeout, malformed-response parse failure). -/
  | sourceFailure
deriving DecidableEq, Repr

deriving instance DecidableEq for Except

/-- Truncation toward zero, the behaviour of Python int() applied to a
rational value: the numerator divided by the positive denominator with
the quotient truncated toward zero. -/
def pyInt (q : ℚ) : ℤ := Int.tdiv q.num q.den

/-- Python str.split with a single-character separator, on character
lists: keeps empty fragments, and the empty input yields one empty
fragment. -/
def splitChars (sep : Char) : List Char → List (List Char)
  | [] => [[]]
  | c :: rest =>
    match splitChars sep rest with
    | [] => [[]]
    | h :: t => if c = sep then [] :: h :: t else (c :: h) :: t

/-- Python str.split with a single-character separator. -/
def pySplit (sep : Char) (s : String) : List String :=
  (splitChars sep s.data).map String.mk

/-- Python str.splitlines restricted to the newline character:
splits on each newline and drops a final empty fragment, so a trailing
newline does not produce a trailing empty line. -/
def pySplitlines (s : String) : List String :=
  if s.data = [] then []
  else
    let parts := splitChars '\n' s.data
    (if parts.getLastD [] = [] then parts.dropLast else parts).map String.mk

/-- Python str.lstrip with an explicit character set: removes every
leading character that belongs to the set, not a literal leading
substring. -/
def pyLstrip (chars : List Char) (s : String) : String :=
  String.mk (s.data.dropWhile (fun c => c ∈ chars))

/-- Does the character list start with the given pattern?
Models the initial-segment part of the Python substring test. -/
def charsStart : List Char → List Char → Bool
  | [], _ => true
  | _ :: _, [] => false
  | a :: pat, b :: rest => a == b && charsStart pat rest

/-- Does the pattern occur as a contiguous run anywhere in the list?
Models the Python substring operator used on response bodies. -/
def charsContain (pat : List Char) : List Char → Bool
  | [] => charsStart pat []
  | b :: rest => charsStart pat (b :: rest) || charsContain pat rest

/-! ## utility.py: module namespace and the WAF range filter -/

/-- Names bound at module level in src/modules/utility.py: its imports
(lines 1-10) and its own top-level definitions. Python resolves a free
name inside a function body against this namespace at call time. -/
def utility_module_names : List String :=
  ["asyncio", "ipaddress", "logging", "chain",
   "List", "Set", "Tuple", "Optional",
   "aiohttp", "tldextract", "similarity", "Path",
   "logger", "UtilityFunctions", "main"]

/-- Parse an IPv4 dotted-quad literal to its 32-bit numeric value.
IPv4-only model of ipaddress address parsing; it is only reachable
through code that the NameError of parse_public_waf_ranges precedes,
so no theorem below depends on it. -/
def parseIPv4 (s : String) : Option ℕ :=
  match (pySplit '.' s).mapM String.toNat? with
  | some [a, b, c, d] =>
      if a < 256 ∧ b < 256 ∧ c < 256 ∧ d < 256 then
        some (((a * 256 + b) * 256 + c) * 256 + d)
      else none
  | _ => none

/-- Full enumeration of the addresses of a CIDR block, the behaviour of
iterating ipaddress.ip_network in utility.py line 53 (dead code behind
the NameError; modelled for IPv4). -/
def ip_network_members (cidr : String) : Finset ℕ :=
  match pySplit '/' cidr with
  | [addr, plen] =>
      match parseIPv4 addr, plen.toNat? with
      | some base, some n =>
          if n ≤ 32 then (Finset.range (2 ^ (32 - n))).image (fun i => base + i)
          else ∅
      | _, _ => ∅
  | [addr] => ((parseIPv4 addr).map (fun a => ({a} : Finset ℕ))).getD ∅
  | _ => ∅

/-- Numeric value of an address literal, the behaviour of
ipaddress.ip_address in utility.py line 54 (dead code behind the
NameError; malformed input defaults to 0 where Python would raise). -/
def ip_address_val (s : String) : ℕ := (parseIPv4 s).getD 0

/-- UtilityFunctions.parse_public_waf_ranges (utility.py lines 45-49):
reads PublicWAFs.txt, drops the header line, strips each remaining
line. The body names aiofiles, so Python first resolves that name in
the module namespace; the file content is a parameter standing for the
PublicWAFs.txt data. -/
def parse_public_waf_ranges (fileContent : String) : Except PyError (List String) :=
  if "aiofiles" ∈ utility_module_names then
    Except.ok (((pySplitlines fileContent).drop 1).map String.trim)
  else
    Except.error PyError.nameErrorAiofiles

/-- UtilityFunctions.filter_out_waf_ips (utility.py lines 51-54): load
the reference ranges, expand every range into its member addresses,
keep the candidates whose address is in no range. -/
def filter_out_waf_ips (fileContent : String) (ips_to_check : Finset String) :
    Except PyError (Finset String) :=
  match parse_public_waf_ranges fileContent with
  | Except.error e => Except.error e
  | Except.ok waf_ips_with_cidr =>
      let all_waf_ips : Finset ℕ :=
        waf_ips_with_cidr.foldr (fun cidr acc => ip_network_members cidr ∪ acc) ∅
      Except.ok (ips_to_check.filter (fun ip => ip_address_val ip ∉ all_waf_ips))

/-- The reference list of Scenario B of the spec: a header line then
the single range 1.2.3.0/24. -/
def scenarioB_waf_file : String := "PublicWAFs header\n1.2.3.0/24"

/-! ## utility.py: page fetching and the similarity scorer -/

/-- UtilityFunctions.compare_two_pages (utility.py lines 38-43): fetch
the candidate page; a failed fetch (None) or an empty body is falsy in
Python and yields score 0; otherwise the score is
int(similarity(original, fetched, k=0.3) * 100). The fetch is a
parameter (url to optional body, None on connection failure or
timeout, as get_page_content returns, lines 28-36); the similarity
function of the html_similarity library is a parameter taking the
locality parameter k and the two contents. -/
def compare_two_pages (sim : ℚ → String → String → ℚ)
    (fetch : String → Option String)
    (original_content check_url : String) : String × ℤ :=
  match fetch check_url with
  | none => (check_url, 0)
  | some check_content =>
      if check_content = "" then (check_url, 0)
      else (check_url, pyInt (sim (3 / 10) original_content check_content * 100))

/-- A concrete stand-in for the html_similarity similarity function,
used to instantiate witnesses: it reports full similarity for every
pair of contents. -/
def constSim : ℚ → String → String → ℚ := fun _ _ _ => 1

/-- Inner loop of WAFAbuser.compare_ips (waf-abuser.py lines 90-93):
score every candidate ip against one fetched baseline content and add
the (ip, score) result to the output set when the score is strictly
greater than the similarity-rate threshold. -/
def compare_one_domain (sim : ℚ → String → String → ℚ)
    (fetch : String → Option String) (t : ℤ) (content : String)
    (ips : List String) (acc : Finset (String × ℤ)) : Finset (String × ℤ) :=
  ips.foldl (fun a ip =>
    let r := compare_two_pages sim fetch content ip
    if t < r.2 then insert r a else a) acc

/-- WAFAbuser.compare_ips (waf-abuser.py lines 82-94): for each input
domain fetch the baseline content (skipping the domain when the fetch
fails) and score every filtered ip against it. -/
def compare_ips (sim : ℚ → String → String → ℚ)
    (fetch : String → Option String) (t : ℤ)
    (input_domains : List String) (filtered_ips : List String) :
    Finset (String × ℤ) :=
  input_domains.foldl (fun acc domain =>
    match fetch domain with
    | none => acc
    | some content => compare_one_domain sim fetch t content filtered_ips acc) ∅

/-- Default of the --similarity-rate argument
(waf-abuser.py lines 42-43). -/
def default_similarity_rate : ℤ := 70

/-! ## subdomain_gathering.py: per-source response parsing and cache writes -/

/-- One audit record of SubdomainGatherer.write_to_cache
(subdomain_gathering.py lines 99-107): the pair of files written for
one (source, domain) interaction, holding the raw response payload and
the derived hostname set. The files serialize the set sorted and
newline-joined and carry a wall-clock timestamp in their names;
serialization order and timestamp are presentation details not
modelled here. -/
structure CacheWrite where
  subdir : String
  domain : String
  response : String
  domains : Finset String
deriving DecidableEq

/-- SubdomainGatherer.write_to_cache as a value: the record that the
two file writes persist. -/
def write_to_cache (subdir domain response : String) (domains : Finset String) :
    CacheWrite :=
  ⟨subdir, domain, response, domains⟩

/-- Hostname set that SubdomainGatherer.certspotter_scraping derives
from a decoded JSON response (subdomain_gathering.py lines 60-64):
each item contributes its dns_names list, and each name is
left-stripped of the characters of the set given to lstrip, the
asterisk and the dot. An item is modelled as its dns_names list. -/
def certspotter_domains (response_json : List (List String)) : Finset String :=
  ((response_json.flatten).map (pyLstrip ['*', '.'])).toFinset

/-- Hostname set that SubdomainGatherer.crtsh_scraping derives from a
decoded JSON response (subdomain_gathering.py lines 90-94): each item
contributes the newline-separated names of its name_value field, and a
name that starts with the literal wildcard marker is dropped by the
comprehension filter. An item is modelled as its name_value string. -/
def crtsh_domains (response_json : List String) : Finset String :=
  (((response_json.map (fun nv => pySplit '\n' nv)).flatten).filter
    (fun n => !(charsStart "*.".data n.data))).toFinset

/-- The rate-limit marker substring that hackertarget_scraping detects
in a response body (subdomain_gathering.py line 74). -/
def hackertarget_marker : List Char := "API count exceeded".data

/-- Hostname set that SubdomainGatherer.hackertarget_scraping derives
from a response body (subdomain_gathering.py line 78): the field
before the first comma of every line. -/
def hackertarget_derived (response_text : String) : Finset String :=
  ((pySplitlines response_text).map (fun line => (pySplit ',' line).headD "")).toFinset

/-- SubdomainGatherer.hackertarget_scraping after the response body
has arrived (subdomain_gathering.py lines 74-80): on the rate-limit
marker it returns the empty set at once; otherwise it derives the
hostnames and persists one cache record. The returned pair is the
hostname set and the list of cache records written. -/
def hackertarget_scraping (domain response_text : String) :
    Finset String × List CacheWrite :=
  if charsContain hackertarget_marker response_text.data then (∅, [])
  else
    let domains := hackertarget_derived response_text
    (domains, [write_to_cache "hackertarget_req_logs" domain response_text domains])

/-! ## subdomain_gathering.py: the concurrent fan-out and join -/

/-- The five concurrent branches that SubdomainGatherer.gather_subdomains
launches per domain (subdomain_gathering.py lines 114-120), each
modelled as a function from the domain to the value its coroutine
returns, or to the exception escaping it. dnsdumpster_scraping and
get_top_domains return lists, the other sources return sets. -/
structure SourceBehaviors where
  dnsdumpster : String → Except PyError (List String)
  certspotter : String → Except PyError (Finset String)
  hackertarget : String → Except PyError (Finset String)
  crtsh : String → Except PyError (Finset String)
  top_domains : String → Except PyError (List String)

/-- One iteration of the loop of gather_subdomains (subdomain_gathering.py
lines 112-129): run the five branches under asyncio.gather with its
default return_exceptions=False, so the first exception propagates out
of the join; on success merge the five results and add the domain
itself. -/
def gather_one (S : SourceBehaviors) (domain : String) :
    Except PyError (Finset String) :=
  match S.dnsdumpster domain with
  | Except.error e => Except.error e
  | Except.ok r1 =>
    match S.certspotter domain with
    | Except.error e => Except.error e
    | Except.ok r2 =>
      match S.hackertarget domain with
      | Except.error e => Except.error e
      | Except.ok r3 =>
        match S.crtsh domain with
        | Except.error e => Except.error e
        | Except.ok r4 =>
          match S.top_domains domain with
          | Except.error e => Except.error e
          | Except.ok r5 =>
              Except.ok (insert domain (r1.toFinset ∪ r2 ∪ r3 ∪ r4 ∪ r5.toFinset))

/-- The sequential outer loop of gather_subdomains over the input
domains, accumulating all_domains; an exception escaping any
iteration aborts the loop. -/
def gather_subdomains_go (S : SourceBehaviors) (acc : Finset String) :
    List String → Except PyError (Finset String)
  | [] => Except.ok acc
  | d :: rest =>
    match gather_one S d with
    | Except.error e => Except.error e
    | Except.ok s => gather_subdomains_go S (acc ∪ s) rest

/-- SubdomainGatherer.gather_subdomains (subdomain_gathering.py lines
109-132): the aggregate subdomain set over all input domains. The
cache-file writes of lines 129-131 are side effects elided here. -/
def gather_subdomains (S : SourceBehaviors) (domains : List String) :
    Except PyError (Finset String) :=
  gather_subdomains_go S ∅ domains

/-- Source behaviours in which every branch succeeds: dnsdumpster
finds one subdomain, the other sources find nothing. -/
def okSources : SourceBehaviors where
  dnsdumpster := fun _ => Except.ok ["a.example.com"]
  certspotter := fun _ => Except.ok ∅
  hackertarget := fun _ => Except.ok ∅
  crtsh := fun _ => Except.ok ∅
  top_domains := fun _ => Except.ok []

/-- Source behaviours in which certspotter raises while dnsdumpster
succeeds with one hostname and the remaining branches succeed empty. -/
def failingSources : SourceBehaviors where
  dnsdumpster := fun _ => Except.ok ["a.example.com"]
  certspotter := fun _ => Except.error PyError.sourceFailure
  hackertarget := fun _ => Except.ok ∅
  crtsh := fun _ => Except.ok ∅
  top_domains := fun _ => Except.ok []

/-- Does an Except value hold a successful result? -/
def exceptOk {α : Type} (r : Except PyError α) : Bool :=
  match r with
  | Except.ok _ => true
  | Except.error _ => false

/-! ## waf-abuser.py: the pipeline orchestrator -/

/-- Terminal outcomes of WAFAbuser.run (waf-abuser.py lines 114-136). -/
inductive RunOutcome where
  /-- The domains-only mode printed the subdomain set and returned
      (lines 121-126). -/
  | domainsOnlyReport (subdomains : Finset String)
  /-- Stage 3 produced no candidate: the run reported
      0 possible non-WAF IPs and returned (lines 131-133). -/
  | zeroNonWafIps
  /-- The run reached stage 4 and reported its confirmed set
      (lines 135-136). -/
  | confirmedReport (out : Finset (String × ℤ))
deriving DecidableEq

/-- WAFAbuser.run (waf-abuser.py lines 114-136) with its four stages
as parameters: subdomain discovery, IP resolution (the external
ip_gathering collaborator), WAF filtering, and similarity comparison.
A stage that can raise returns Except. Stage 4 is a total function
parameter; the theorem about early termination quantifies over it, so
its conclusion can only hold because stage 4 is never applied on the
early-exit path. -/
def run (domains_only : Bool) (input_domains : List String)
    (subdomain_stage : List String → Except PyError (Finset String))
    (ip_stage : Finset String → Except PyError (Finset String))
    (filter_stage : Finset String → Except PyError (Finset String))
    (compare_stage : List String → Finset String → Finset (String × ℤ)) :
    Except PyError RunOutcome :=
  match subdomain_stage input_domains with
  | Except.error e => Except.error e
  | Except.ok subdomains =>
    if domains_only then Except.ok (RunOutcome.domainsOnlyReport subdomains)
    else
      match ip_stage subdomains with
      | Except.error e => Except.error e
      | Except.ok ips =>
        match filter_stage ips with
        | Except.error e => Except.error e
        | Except.ok filtered_ips =>
          if filtered_ips = ∅ then Except.ok RunOutcome.zeroNonWafIps
          else Except.ok (RunOutcome.confirmedReport
            (compare_stage input_domains filtered_ips))

/-- A fetch behaviour used to instantiate witnesses: the baseline
domain example.com serves the content page, every other connection
target fails (connection error or timeout, yielding None as
get_page_content does). -/
def witnessFetch : String → Option String :=
  fun u => if u = "example.com" then some "page" else none

/-! ## Helper lemmas -/

lemma compare_two_pages_fst (sim : ℚ → String → String → ℚ)
    (fetch : String → Option String) (c u : String) :
    (compare_two_pages sim fetch c u).1 = u := by
  unfold compare_two_pages
  cases fetch u with
  | none => rfl
  | some cc => by_cases h : cc = "" <;> simp [h]

lemma compare_two_pages_of_none (sim : ℚ → String → String → ℚ)
    (fetch : String → Option String) (c u : String) (hf : fetch u = none) :
    compare_two_pages sim fetch c u = (u, 0) := by
  unfold compare_two_pages
  rw [hf]

lemma compare_two_pages_sim_one (sim : ℚ → String → String → ℚ)
    (fetch : String → Option String) (content X url : String)
    (hf : fetch url = some X) (hne : X ≠ "") (hs : sim (3 / 10) content X = 1) :
    compare_two_pages sim fetch content url = (url, 100) := by
  unfold compare_two_pages
  rw [hf]
  simp only [if_neg hne]
  rw [hs]
  norm_num [pyInt]

lemma mem_compare_one_domain (sim : ℚ → String → String → ℚ)
    (fetch : String → Option String) (t : ℤ) (content : String) :
    ∀ (ips : List String) (acc : Finset (String × ℤ)) (p : String × ℤ),
      p ∈ compare_one_domain sim fetch t content ips acc ↔
        p ∈ acc ∨ ∃ ip ∈ ips, p = compare_two_pages sim fetch content ip ∧ t < p.2 := by
  intro ips
  induction ips with
  | nil => intro acc p; simp [compare_one_domain]
  | cons ip rest ih =>
    intro acc p
    have step : compare_one_domain sim fetch t content (ip :: rest) acc =
        compare_one_domain sim fetch t content rest
          (if t < (compare_two_pages sim fetch content ip).2
           then insert (compare_two_pages sim fetch content ip) acc else acc) := rfl
    rw [step, ih]
    by_cases h : t < (compare_two_pages sim fetch content ip).2
    · simp only [if_pos h, Finset.mem_insert, List.mem_cons]
      constructor
      · rintro (⟨hp | hp⟩ | ⟨i, hi, hp, hlt⟩)
        · subst hp; exact Or.inr ⟨ip, Or.inl rfl, rfl, h⟩
        · exact Or.inl hp
        · exact Or.inr ⟨i, Or.inr hi, hp, hlt⟩
      · rintro (hp | ⟨i, hi | hi, hp, hlt⟩)
        · exact Or.inl (Or.inr hp)
        · subst hi; subst hp; exact Or.inl (Or.inl rfl)
        · exact Or.inr ⟨i, hi, hp, hlt⟩
    · simp only [if_neg h, List.mem_cons]
      constructor
      · rintro (hp | ⟨i, hi, hp, hlt⟩)
        · exact Or.inl hp
        · exact Or.inr ⟨i, Or.inr hi, hp, hlt⟩
      · rintro (hp | ⟨i, hi | hi, hp, hlt⟩)
        · exact Or.inl hp
        · subst hi; subst hp; exact absurd hlt h
        · exact Or.inr ⟨i, hi, hp, hlt⟩

lemma mem_compare_ips (sim : ℚ → String → String → ℚ)
    (fetch : String → Option String) (t : ℤ) (ips : List String) :
    ∀ (domains : List String) (p : String × ℤ),
      p ∈ compare_ips sim fetch t domains ips ↔
        ∃ d ∈ domains, ∃ c, fetch d = some c ∧
          ∃ ip ∈ ips, p = compare_two_pages sim fetch c ip ∧ t < p.2 := by
  have go : ∀ (domains : List String) (acc : Finset (String × ℤ)) (p : String × ℤ),
      p ∈ domains.foldl (fun acc domain =>
          match fetch domain with
          | none => acc
          | some content => compare_one_domain sim fetch t content ips acc) acc ↔
        p ∈ acc ∨ ∃ d ∈ domains, ∃ c, fetch d = some c ∧
          ∃ ip ∈ ips, p = compare_two_pages sim fetch c ip ∧ t < p.2 := by
    intro domains
    induction domains with
    | nil => intro acc p; simp
    | cons d rest ih =>
      intro acc p
      rw [List.foldl_cons]
      cases hd : fetch d with
      | none =>
        simp only [hd, ih, List.mem_cons]
        constructor
        · rintro (hp | ⟨d', hd', rest'⟩)
          · exact Or.inl hp
          · exact Or.inr ⟨d', Or.inr hd', rest'⟩
        · rintro (hp | ⟨d', hd' | hd', c, hc, rest'⟩)
          · exact Or.inl hp
          · subst hd'; rw [hd] at hc; cases hc
          · exact Or.inr ⟨d', hd', c, hc, rest'⟩
      | some content =>
        simp only [hd, ih, mem_compare_one_domain, List.mem_cons]
        constructor
        · rintro (⟨hp | ⟨i, hi, hp, hlt⟩⟩ | ⟨d', hd', rest'⟩)
          · exact Or.inl hp
          · exact Or.inr ⟨d, Or.inl rfl, content, hd, i, hi, hp, hlt⟩
          · exact Or.inr ⟨d', Or.inr hd', rest'⟩
        · rintro (hp | ⟨d', hd' | hd', c, hc, i, hi, hp, hlt⟩)
          · exact Or.inl (Or.inl hp)
          · subst hd'; rw [hd] at hc
            cases hc
            exact Or.inl (Or.inr ⟨i, hi, hp, hlt⟩)
          · exact Or.inr ⟨d', hd', c, hc, i, hi, hp, hlt⟩
  intro domains p
  unfold compare_ips
  rw [go]
  simp

lemma gather_one_ok_mem (S : SourceBehaviors) (d : String) (s : Finset String)
    (h : gather_one S d = Except.ok s) : d ∈ s := by
  unfold gather_one at h
  cases h1 : S.dnsdumpster d <;> rw [h1] at h
  case error => cases h
  case ok r1 =>
  cases h2 : S.certspotter d <;> rw [h2] at h
  case error => cases h
  case ok r2 =>
  cases h3 : S.hackertarget d <;> rw [h3] at h
  case error => cases h
  case ok r3 =>
  cases h4 : S.crtsh d <;> rw [h4] at h
  case error => cases h
  case ok r4 =>
  cases h5 : S.top_domains d <;> rw [h5] at h
  case error => cases h
  case ok r5 =>
  cases h
  exact Finset.mem_insert_self d _

lemma gather_one_ok_sources (S : SourceBehaviors) (d : String) (s : Finset String)
    (h : gather_one S d = Except.ok s) :
    exceptOk (S.dnsdumpster d) = true ∧ exceptOk (S.certspotter d) = true ∧
    exceptOk (S.hackertarget d) = true ∧ exceptOk (S.crtsh d) = true ∧
    exceptOk (S.top_domains d) = true := by
  unfold gather_one at h
  cases h1 : S.dnsdumpster d <;> rw [h1] at h
  case error => cases h
  case ok r1 =>
  cases h2 : S.certspotter d <;> rw [h2] at h
  case error => cases h
  case ok r2 =>
  cases h3 : S.hackertarget d <;> rw [h3] at h
  case error => cases h
  case ok r3 =>
  cases h4 : S.crtsh d <;> rw [h4] at h
  case error => cases h
  case ok r4 =>
  cases h5 : S.top_domains d <;> rw [h5] at h
  case error => cases h
  case ok r5 => exact ⟨rfl, rfl, rfl, rfl, rfl⟩

lemma gather_go_ok (S : SourceBehaviors) :
    ∀ (domains : List String) (acc res : Finset String),
      gather_subdomains_go S acc domains = Except.ok res →
      acc ⊆ res ∧ ∀ d ∈ domains, d ∈ res := by
  intro domains
  induction domains with
  | nil =>
    intro acc res h
    cases h
    exact ⟨Finset.Subset.refl _, by simp⟩
  | cons d rest ih =>
    intro acc res h
    unfold gather_subdomains_go at h
    cases h1 : gather_one S d <;> rw [h1] at h
    case error => cases h
    case ok s =>
      obtain ⟨hsub, hmem⟩ := ih (acc ∪ s) res h
      refine ⟨fun x hx => hsub (Finset.mem_union_left _ hx), ?_⟩
      intro d' hd'
      rcases List.mem_cons.mp hd' with hd' | hd'
      · subst hd'
        exact hsub (Finset.mem_union_right _ (gather_one_ok_mem S d' s h1))
      · exact hmem d' hd'

lemma gather_go_sources (S : SourceBehaviors) :
    ∀ (domains : List String) (acc res : Finset String),
      gather_subdomains_go S acc domains = Except.ok res →
      ∀ d ∈ domains, ∃ s, gather_one S d = Except.ok s := by
  intro domains
  induction domains with
  | nil => intro acc res _ d hd; cases hd
  | cons d rest ih =>
    intro acc res h
    unfold gather_subdomains_go at h
    cases h1 : gather_one S d <;> rw [h1] at h
    case error => cases h
    case ok s =>
      intro d' hd'
      rcases List.mem_cons.mp hd' with hd' | hd'
      · subst hd'; exact ⟨s, h1⟩
      · exact ih (acc ∪ s) res h d' hd'

lemma pyLstrip_wildcard (name rest : String)
    (hn : name.data = '*' :: '.' :: rest.data)
    (h1 : rest.data.head? ≠ some '*') (h2 : rest.data.head? ≠ some '.') :
    pyLstrip ['*', '.'] name = rest := by
  unfold pyLstrip
  rw [hn]
  show String.mk (List.dropWhile _ ('*' :: '.' :: rest.data)) = rest
  rw [List.dropWhile_cons_of_pos (by decide), List.dropWhile_cons_of_pos (by decide)]
  cases hr : rest.data with
  | nil => rw [List.dropWhile_nil]; apply congrArg String.mk; exact hr.symm
  | cons c cs =>
    rw [hr] at h1 h2
    simp only [List.head?] at h1 h2
    have hc1 : c ≠ '*' := fun hc => h1 (by rw [hc])
    have hc2 : c ≠ '.' := fun hc => h2 (by rw [hc])
    rw [List.dropWhile_cons_of_neg (by simp [hc1, hc2])]
    apply congrArg String.mk
    exact hr.symm


/-! ## Claim theorems -/

/-- C1: evaluation of the WAF range filter at the Scenario B input of
the spec (reference range 1.2.3.0/24 behind a header line, candidates
1.2.3.5 and 5.6.7.8). The claim says the filtered set is exactly the
candidates covered by no range, here the singleton 5.6.7.8; the code
instead raises NameError for the unimported name aiofiles before
examining any candidate. -/
theorem C1_scenarioB_filter_raises :
    filter_out_waf_ips scenarioB_waf_file {"1.2.3.5", "5.6.7.8"} =
      Except.error PyError.nameErrorAiofiles := by decide

/-- C10: the name aiofiles is not bound in the module namespace of
utility.py, and therefore every call of the WAF range filter, for
every reference-file content and every candidate set, raises NameError;
the result is the error independent of the candidates, so no input
ever reaches the membership test. -/
theorem C10_filter_always_raises_name_error :
    "aiofiles" ∉ utility_module_names ∧
    ∀ (fileContent : String) (ips_to_check : Finset String),
      filter_out_waf_ips fileContent ips_to_check =
        Except.error PyError.nameErrorAiofiles := by
  refine ⟨by decide, ?_⟩
  intro fc ips
  unfold filter_out_waf_ips parse_public_waf_ranges
  rw [if_neg (by decide)]

/-- C2 counterexample: with certspotter raising and dnsdumpster
returning the hostname a.example.com, the fan-out for example.com
propagates the exception out of the join, so no aggregate set at all
is produced; in particular the aggregate predicted by the claim, the
sibling hostname together with the domain, is not returned. -/
theorem C2_counterexample :
    gather_subdomains failingSources ["example.com"] =
      Except.error PyError.sourceFailure ∧
    gather_subdomains failingSources ["example.com"] ≠
      Except.ok {"example.com", "a.example.com"} := ⟨by decide, by decide⟩

/-- C2 amended: a failure raised by any one subdomain source aborts
the join: an aggregate set is returned only when every one of the five
branches succeeded on every domain, so a failing source never merely
contributes an empty set. -/
theorem C2_failure_aborts_join (S : SourceBehaviors) (domains : List String)
    (res : Finset String) (h : gather_subdomains S domains = Except.ok res) :
    ∀ d ∈ domains,
      exceptOk (S.dnsdumpster d) = true ∧ exceptOk (S.certspotter d) = true ∧
      exceptOk (S.hackertarget d) = true ∧ exceptOk (S.crtsh d) = true ∧
      exceptOk (S.top_domains d) = true := by
  intro d hd
  obtain ⟨s, hs⟩ := gather_go_sources S domains ∅ res h d hd
  exact gather_one_ok_sources S d s hs

/-- C2 witness: the amended theorem applied to the all-successful
source behaviours on the single domain example.com. -/
theorem C2_failure_aborts_join_witness :
    gather_subdomains okSources ["example.com"] =
      Except.ok {"example.com", "a.example.com"} ∧
    exceptOk (okSources.certspotter "example.com") = true := by
  refine ⟨by decide, ?_⟩
  exact (C2_failure_aborts_join okSources ["example.com"]
    {"example.com", "a.example.com"} (by decide) "example.com" (by decide)).2.1

/-- C3: when fetching a candidate fails (get_page_content returns
None), compare_two_pages returns the pair of the candidate and score 0
without raising, and for every threshold between 0 and 100 no pair
with that candidate as first component enters the confirmed set of
compare_ips. -/
theorem C3_fetch_failure_scores_zero (sim : ℚ → String → String → ℚ)
    (fetch : String → Option String) (t : ℤ) (baseline ip : String)
    (domains ips : List String)
    (hf : fetch ip = none) (h0 : 0 ≤ t) (_h100 : t ≤ 100) :
    compare_two_pages sim fetch baseline ip = (ip, 0) ∧
    ∀ s : ℤ, (ip, s) ∉ compare_ips sim fetch t domains ips := by
  refine ⟨compare_two_pages_of_none sim fetch baseline ip hf, ?_⟩
  intro s hmem
  rw [mem_compare_ips] at hmem
  obtain ⟨d, hd, c, hc, i, hi, hp, hlt⟩ := hmem
  have hi2 : i = ip := by
    have h := congrArg Prod.fst hp
    rw [compare_two_pages_fst] at h
    exact h.symm
  subst hi2
  rw [compare_two_pages_of_none sim fetch c i hf] at hp
  have hs0 : s = 0 := congrArg Prod.snd hp
  rw [show ((i, s) : String × ℤ).2 = s from rfl, hs0] at hlt
  exact absurd hlt (not_lt.mpr h0)

/-- C3 witness: the theorem at a fetch that times out on the candidate
9.9.9.9 and threshold 70. -/
theorem C3_fetch_failure_scores_zero_witness :
    witnessFetch "9.9.9.9" = none ∧ (0:ℤ) ≤ 70 ∧ (70:ℤ) ≤ 100 ∧
    compare_two_pages constSim witnessFetch "page" "9.9.9.9" = ("9.9.9.9", 0) ∧
    ("9.9.9.9", (0:ℤ)) ∉
      compare_ips constSim witnessFetch 70 ["example.com"] ["9.9.9.9"] := by
  have h := C3_fetch_failure_scores_zero constSim witnessFetch 70 "page" "9.9.9.9"
    ["example.com"] ["9.9.9.9"] (by decide) (by decide) (by decide)
  exact ⟨by decide, by decide, by decide, h.1, h.2 0⟩

/-- C4: with a successfully fetched baseline, the pair of a candidate
and its score is in the confirmed set exactly when the score is
strictly greater than the threshold, so a score equal to the threshold
is excluded; and the threshold of the similarity-rate argument
defaults to 70. -/
theorem C4_strict_threshold (sim : ℚ → String → String → ℚ)
    (fetch : String → Option String) (t : ℤ) (domain content ip : String)
    (ips : List String)
    (hd : fetch domain = some content) (hip : ip ∈ ips) :
    (((ip, (compare_two_pages sim fetch content ip).2)) ∈
        compare_ips sim fetch t [domain] ips ↔
      t < (compare_two_pages sim fetch content ip).2) ∧
    default_similarity_rate = 70 := by
  refine ⟨?_, rfl⟩
  rw [mem_compare_ips]
  constructor
  · rintro ⟨d, hdm, c, hc, i, hi, hp, hlt⟩
    exact hlt
  · intro hlt
    refine ⟨domain, List.mem_singleton.mpr rfl, content, hd, ip, hip, ?_, hlt⟩
    have h1 := compare_two_pages_fst sim fetch content ip
    exact Prod.ext_iff.mpr ⟨h1.symm, rfl⟩

/-- C4 witness: with identical baseline and candidate content the
score is 100, so with threshold 70 the candidate is confirmed. -/
theorem C4_strict_threshold_witness :
    witnessFetch "example.com" = some "page" ∧ "9.9.9.9" ∈ ["9.9.9.9"] ∧
    ("9.9.9.9", (compare_two_pages constSim
        (fun _ => some "page") "page" "9.9.9.9").2) ∈
      compare_ips constSim (fun _ => some "page") 70 ["example.com"] ["9.9.9.9"] ∧
    default_similarity_rate = 70 := by
  have h := C4_strict_threshold constSim (fun _ => some "page") 70
    "example.com" "page" "9.9.9.9" ["9.9.9.9"] rfl (by decide)
  refine ⟨by decide, by decide, ?_, h.2⟩
  apply h.1.mpr
  rw [compare_two_pages_sim_one constSim (fun _ => some "page") "page" "page"
    "9.9.9.9" rfl (by decide) rfl]
  decide

/-- C5 counterexample: a crtsh response whose name_value is the
wildcard-decorated name yields an empty derived set: the wildcard name
is discarded outright, and in particular the bare decorated name
example.com is not kept. -/
theorem C5_counterexample :
    crtsh_domains ["*.example.com"] = ∅ ∧
    "example.com" ∉ crtsh_domains ["*.example.com"] := ⟨by decide, by decide⟩

/-- C5 amended: the two sources treat wildcard-decorated names
differently: certspotter strips the leading wildcard characters and
keeps the bare decorated name, while crtsh filters out every name
starting with the wildcard marker, discarding it rather than
normalizing it. -/
theorem C5_wildcard_split_behaviour :
    (∀ (response_json : List (List String)) (item : List String)
        (name rest : String),
      item ∈ response_json → name ∈ item →
      name.data = '*' :: '.' :: rest.data →
      rest.data.head? ≠ some '*' → rest.data.head? ≠ some '.' →
      rest ∈ certspotter_domains response_json) ∧
    (∀ (response_json : List String) (n : String),
      charsStart "*.".data n.data = true → n ∉ crtsh_domains response_json) := by
  constructor
  · intro rj item name rest hitem hname hn h1 h2
    unfold certspotter_domains
    rw [List.mem_toFinset]
    refine List.mem_map.mpr ⟨name, ?_, pyLstrip_wildcard name rest hn h1 h2⟩
    exact List.mem_flatten.mpr ⟨item, hitem, hname⟩
  · intro rj n hstart hmem
    unfold crtsh_domains at hmem
    rw [List.mem_toFinset, List.mem_filter] at hmem
    obtain ⟨-, hfil⟩ := hmem
    rw [hstart] at hfil
    simp at hfil

/-- C5 witness: certspotter keeps example.com from the decorated name,
and crtsh drops the decorated name from its response. -/
theorem C5_wildcard_split_behaviour_witness :
    "example.com" ∈ certspotter_domains [["*.example.com"]] ∧
    "*.other.com" ∉ crtsh_domains ["*.other.com", "keep.other.com"] := by
  have h := C5_wildcard_split_behaviour
  exact ⟨h.1 [["*.example.com"]] ["*.example.com"] "*.example.com" "example.com"
      (by decide) (by decide) (by decide) (by decide) (by decide),
    h.2 ["*.other.com", "keep.other.com"] "*.other.com" (by decide)⟩

/-- C6: whenever gather_subdomains returns a set at all, that set
contains every input domain, whatever hostname sets or failures the
individual sources produced: line 126 of subdomain_gathering.py adds
the domain itself after the join. -/
theorem C6_result_contains_domain (S : SourceBehaviors) (domains : List String)
    (res : Finset String) (d : String)
    (h : gather_subdomains S domains = Except.ok res) (hd : d ∈ domains) :
    d ∈ res :=
  (gather_go_ok S domains ∅ res h).2 d hd

/-- C6 witness: the theorem at the all-successful source behaviours on
the single domain example.org. -/
theorem C6_result_contains_domain_witness :
    gather_subdomains okSources ["example.org"] =
      Except.ok {"example.org", "a.example.com"} ∧
    "example.org" ∈ ({"example.org", "a.example.com"} : Finset String) := by
  refine ⟨by decide, ?_⟩
  exact C6_result_contains_domain okSources ["example.org"]
    {"example.org", "a.example.com"} "example.org" (by decide) (by decide)

/-- C7 counterexample: for the content X equal to the empty string, a
candidate serving exactly X scores 0, not 100: the empty fetched body
is falsy in Python and takes the failure branch of compare_two_pages.
The similarity stand-in used reports 1 for identical contents, so the
zero score is not an artifact of the stand-in, which is never
consulted on this branch. -/
theorem C7_counterexample :
    compare_two_pages constSim (fun _ => some "") "" "1.2.3.4" = ("1.2.3.4", 0) ∧
    (compare_two_pages constSim (fun _ => some "") "" "1.2.3.4").2 ≠ 100 :=
  ⟨by decide, by decide⟩

/-- C7 amended: the score is a deterministic function of the baseline
content, the fetched candidate content and the locality parameter, and
for every nonempty content X, if the similarity function reports 1 for
X against itself (the documented behaviour of html_similarity on
identical content) then a candidate serving exactly X against
baseline X scores exactly 100; empty content instead takes the
failure branch and scores 0. -/
theorem C7_identical_content_scores_100 (sim : ℚ → String → String → ℚ)
    (fetch : String → Option String) (X url : String)
    (hs : sim (3 / 10) X X = 1) (hne : X ≠ "") (hf : fetch url = some X) :
    compare_two_pages sim fetch X url = (url, 100) ∧
    ∀ (g : String → Option String) (u : String), g u = fetch url →
      (compare_two_pages sim g X u).2 = (compare_two_pages sim fetch X url).2 := by
  refine ⟨compare_two_pages_sim_one sim fetch X X url hf hne hs, ?_⟩
  intro g u hg
  rw [(compare_two_pages_sim_one sim fetch X X url hf hne hs),
    (compare_two_pages_sim_one sim g X X u (hg.trans hf) hne hs)]

/-- C7 witness: the amended theorem at the nonempty content page. -/
theorem C7_identical_content_scores_100_witness :
    constSim (3 / 10) "page" "page" = 1 ∧ "page" ≠ "" ∧
    witnessFetch "example.com" = some "page" ∧
    compare_two_pages constSim witnessFetch "page" "example.com" =
      ("example.com", 100) := by
  refine ⟨rfl, by decide, by decide, ?_⟩
  exact (C7_identical_content_scores_100 constSim witnessFetch "page"
    "example.com" rfl (by decide) (by decide)).1

/-- C8 counterexample: a rate-limited hackertarget interaction (the
response body carries the API count exceeded marker) returns the empty
hostname set and persists no cache record at all, refuting the claim
that every interaction, including rate-limited ones, persists an
audit record. -/
theorem C8_counterexample :
    hackertarget_scraping "example.com" "API count exceeded" = (∅, []) := by
  decide

/-- C8 amended: a hackertarget interaction persists exactly one audit
record holding the raw response payload and the derived hostname set
when the rate-limit marker is absent; when the marker is present the
source returns the empty set and persists nothing. -/
theorem C8_audit_record_unless_rate_limited (domain response_text : String) :
    (charsContain hackertarget_marker response_text.data = false →
      hackertarget_scraping domain response_text =
        (hackertarget_derived response_text,
         [write_to_cache "hackertarget_req_logs" domain response_text
            (hackertarget_derived response_text)])) ∧
    (charsContain hackertarget_marker response_text.data = true →
      hackertarget_scraping domain response_text = (∅, [])) := by
  constructor
  · intro h; simp [hackertarget_scraping, h]
  · intro h; simp [hackertarget_scraping, h]

/-- C8 witness: both branches of the amended theorem at concrete
responses. -/
theorem C8_audit_record_unless_rate_limited_witness :
    charsContain hackertarget_marker ("host1.example.com,1.2.3.4").data = false ∧
    hackertarget_scraping "example.com" "host1.example.com,1.2.3.4" =
      ({"host1.example.com"},
       [write_to_cache "hackertarget_req_logs" "example.com"
          "host1.example.com,1.2.3.4" {"host1.example.com"}]) ∧
    charsContain hackertarget_marker ("API count exceeded today").data = true ∧
    hackertarget_scraping "example.com" "API count exceeded today" = (∅, []) := by
  refine ⟨by decide, ?_, by decide, ?_⟩
  · exact ((C8_audit_record_unless_rate_limited "example.com"
      "host1.example.com,1.2.3.4").1 (by decide)).trans (by decide)
  · exact (C8_audit_record_unless_rate_limited "example.com"
      "API count exceeded today").2 (by decide)

/-- C9: in non-discovery-only mode, when the filtering stage returns
the empty set the orchestrator reports zero candidates and returns
without entering stage 4: the outcome is the zero-candidate report for
every possible comparison stage, which can only hold because the
comparison stage is never applied, so no similarity comparison and no
content fetch happens. -/
theorem C9_empty_filter_halts (input_domains : List String)
    (subdomain_stage : List String → Except PyError (Finset String))
    (ip_stage filter_stage : Finset String → Except PyError (Finset String))
    (subs ips : Finset String)
    (h1 : subdomain_stage input_domains = Except.ok subs)
    (h2 : ip_stage subs = Except.ok ips)
    (h3 : filter_stage ips = Except.ok ∅) :
    ∀ compare_stage : List String → Finset String → Finset (String × ℤ),
      run false input_domains subdomain_stage ip_stage filter_stage
        compare_stage = Except.ok RunOutcome.zeroNonWafIps := by
  intro compare_stage
  simp [run, h1, h2, h3]

/-- C9 witness: the theorem at concrete stages whose filter output is
empty, with a comparison stage that would report a candidate if it
were ever consulted. -/
theorem C9_empty_filter_halts_witness :
    (fun _ => Except.ok {"example.com"} :
        List String → Except PyError (Finset String)) ["example.com"] =
      Except.ok {"example.com"} ∧
    run false ["example.com"]
      (fun _ => Except.ok {"example.com"})
      (fun _ => Except.ok ∅) (fun _ => Except.ok ∅)
      (fun _ _ => {("9.9.9.9", 99)}) = Except.ok RunOutcome.zeroNonWafIps := by
  refine ⟨rfl, ?_⟩
  exact C9_empty_filter_halts ["example.com"] (fun _ => Except.ok {"example.com"})
    (fun _ => Except.ok ∅) (fun _ => Except.ok ∅) {"example.com"} ∅
    rfl rfl rfl (fun _ _ => {("9.9.9.9", 99)})
